import Mathlib

/-
  Verification development for the state store of a disk-flashing
  application (`src/lib/gui/models/store.js`).

  The reducer is embedded shallowly:
  * JavaScript dynamic values are modelled by `JSValue` (numbers as `Int`;
    the numeric coercion corners of `>` that the store never exercises are
    not modelled, see `jsGt`).
  * The immutable state map is the record `State`; payload objects are
    records of `JSValue` fields, so dynamic type checks (`_.isString`,
    truthiness, ...) are faithful.
  * Throwing is `Except.error`; `_.attempt` returns either the produced
    value or the caught error object, so the reducer result type is
    `Except Err RResult` where `RResult` is either a state or an error
    object that escaped through `_.attempt`.
  * The drive-constraints module is an external collaborator; it is a
    parameter (`Constraints`) of pure predicates, exactly as consumed.
  * Recursion between action cases is bounded by the static call graph;
    the embedding uses a fuel parameter (`reducerF`), and `storeReducer`
    runs with fuel 10, strictly more than the deepest possible chain
    (SELECT_OS > SET_AVAILABLE_DRIVES > SELECT_DRIVE > SELECT_IMAGE >
    REMOVE_DRIVE > REMOVE_IMAGE), so the fuel guard is never reached.
-/

namespace PineStore

/-- A JavaScript runtime value, as far as the store inspects values:
`undefined`, `null`, booleans, numbers, strings, and opaque object-like
values (objects, arrays, functions), identified by a tag. -/
inductive JSValue where
  | undefined
  | null
  | bool (b : Bool)
  | num (n : Int)
  | str (s : String)
  | objLike (id : Nat)
deriving DecidableEq

/-- JavaScript truthiness (`NaN` is not modelled; numbers are `Int`). -/
def truthy : JSValue → Bool
  | .undefined => false
  | .null => false
  | .bool b => b
  | .num n => n != 0
  | .str s => s != ""
  | .objLike _ => true

/-- `_.isString` -/
def isString : JSValue → Bool
  | .str _ => true
  | _ => false

/-- `_.isNumber` -/
def isNumber : JSValue → Bool
  | .num _ => true
  | _ => false

/-- `_.isBoolean` -/
def isBoolean : JSValue → Bool
  | .bool _ => true
  | _ => false

/-- `_.isObject`: objects, arrays and functions; not `null`, not primitives. -/
def jsIsObject : JSValue → Bool
  | .objLike _ => true
  | _ => false

/-- `_.isUndefined(v) || _.isNull(v)`, that is JavaScript `v == null`. -/
def isNullish : JSValue → Bool
  | .undefined => true
  | .null => true
  | _ => false

/-- JavaScript `String(v)` for the values that reach error messages. -/
def jsToString : JSValue → String
  | .undefined => "undefined"
  | .null => "null"
  | .bool true => "true"
  | .bool false => "false"
  | .num n => toString n
  | .str s => s
  | .objLike _ => "[object Object]"

/-- JavaScript `>` as used by `_.maxBy` on `recommendedDriveSize` values.
Number/number and string/string comparisons are modelled; the store only
ever compares drive-size numbers, so cross-type numeric coercion is
conservatively `false`. -/
def jsGt : JSValue → JSValue → Bool
  | .num a, .num b => a > b
  | .str a, .str b => decide (b < a)
  | _, _ => false

/-- An image record: both the candidate images inside an operating-system
catalog entry and the `SELECT_IMAGE` payload; absent fields are
`undefined`, exactly as property access on a plain object yields. -/
structure Image where
  path : JSValue := .undefined
  url : JSValue := .undefined
  name : JSValue := .undefined
  logo : JSValue := .undefined
  version : JSValue := .undefined
  checksum : JSValue := .undefined
  checksumType : JSValue := .undefined
  recommendedDriveSize : JSValue := .undefined
  downloadChecksum : JSValue := .undefined
  downloadChecksumType : JSValue := .undefined
  size : JSValue := .undefined
deriving DecidableEq

/-- A drive record as delivered to `SET_AVAILABLE_DRIVES`; the
`recommendedImage` field is the annotation computed by the reducer. -/
structure Drive where
  device : JSValue := .undefined
  size : JSValue := .undefined
  «protected» : JSValue := .undefined
  system : JSValue := .undefined
  recommendedImage : Option Image := none
deriving DecidableEq

/-- An operating-system catalog entry (`SELECT_OS` payload).
`isEmptyObj` records whether the underlying plain object has no own keys,
which is what `_.isEmpty` inspects. -/
structure OS where
  isEmptyObj : Bool := false
  images : List Image := []
  logo : JSValue := .undefined
  version : JSValue := .undefined
deriving DecidableEq

/-- The `flashState` progress record / `SET_FLASH_STATE` payload. -/
structure FlashPayload where
  type : JSValue := .undefined
  percentage : JSValue := .undefined
  eta : JSValue := .undefined
  speed : JSValue := .undefined
deriving DecidableEq

/-- The `flashResults` record / `UNSET_FLASHING_FLAG` payload. -/
structure FlashResults where
  cancelled : JSValue := .undefined
  sourceChecksum : JSValue := .undefined
  errorCode : JSValue := .undefined
deriving DecidableEq

/-- The fixed-key `settings` subtree. -/
structure Settings where
  unsafeMode : JSValue := .bool false
  errorReporting : JSValue := .bool true
  unmountOnSuccess : JSValue := .bool true
  validateWriteOnSuccess : JSValue := .bool true
  sleepUpdateCheck : JSValue := .bool false
  lastUpdateNotify : JSValue := .null
  downloadPath : JSValue := .null
  downloadSource : JSValue := .str "default/boards.json"
deriving DecidableEq

/-- The application state tree; field defaults are `DEFAULT_STATE`. -/
structure State where
  availableDrives : List Drive := []
  selectionOs : Option OS := none
  selectionDrive : Option String := none
  selectionImage : Option Image := none
  isFlashing : Bool := false
  flashState : FlashPayload := { percentage := .num 0, speed := .num (-1) }
  flashResults : FlashResults := {}
  settings : Settings := {}
deriving DecidableEq

/-- The application default state. -/
def DEFAULT_STATE : State := {}

/-- An action payload; `none` is a dispatch with no `data`. One
constructor per payload shape the reducer reads. -/
inductive Payload where
  | none
  | os (o : OS)
  | drives (ds : List Drive)
  | flash (f : FlashPayload)
  | results (r : FlashResults)
  | drive (d : JSValue)
  | image (i : Image)
  | setting (key value : JSValue)
deriving DecidableEq

/-- A dispatched action: a type string plus a payload. -/
structure Action where
  type : String
  data : Payload := .none
deriving DecidableEq

/-- The twelve supported action messages (the `ACTIONS` constant). -/
def actionTypes : List String :=
  [ "SET_AVAILABLE_DRIVES", "SET_FLASH_STATE", "RESET_FLASH_STATE",
    "SET_FLASHING_FLAG", "UNSET_FLASHING_FLAG", "SELECT_OS",
    "SELECT_DRIVE", "SELECT_IMAGE", "REMOVE_OS", "REMOVE_DRIVE",
    "REMOVE_IMAGE", "SET_SETTING" ]

/-- A failure escaping a reducer case: a thrown `Error(msg)`, a runtime
`TypeError` (a method called on a non-state value), a payload shape the
embedding does not model, or fuel exhaustion (never reached from
`storeReducer`). -/
inductive Err where
  | error (msg : String)
  | typeError (msg : String)
  | unmodeled
  | noFuel
deriving DecidableEq

/-- A value returned by the reducer: a state, or an error object that a
nested `_.attempt` caught and returned as if it were the new state. -/
inductive RResult where
  | st (s : State)
  | errObj (e : Err)
deriving DecidableEq

/-- Reducer computations: `Except.error` is a thrown exception. -/
abbrev RM := Except Err RResult

/-- `_.attempt(fn)`: the value `fn` returns, or the caught error object. -/
def attempt : RM → RResult
  | .ok r => r
  | .error e => .errObj e

/-- The drive-constraints policy (external collaborator
`shared/drive-constraints`): pure predicates over plain drive/image data.
The third argument of `isDriveValid` is passed as a JavaScript value
because one call site passes a boolean and another passes nothing. -/
structure Constraints where
  isDriveValid : Drive → Image → JSValue → Bool
  isDriveSizeRecommended : Drive → Image → Bool
  isSystemDrive : Drive → Bool
  isDriveLargeEnough : Drive → Image → Bool

/-- An all-permissive constraints instance, used for concrete runs. -/
def permissive : Constraints where
  isDriveValid := fun _ _ _ => true
  isDriveSizeRecommended := fun _ _ => true
  isSystemDrive := fun _ => false
  isDriveLargeEnough := fun _ _ => true

/-- A constraints instance that rejects write-protected drives in
`isDriveValid`, used for concrete runs that must not auto-select. -/
def guarded : Constraints where
  isDriveValid := fun d _ _ => !truthy d.«protected»
  isDriveSizeRecommended := fun _ _ => true
  isSystemDrive := fun _ => false
  isDriveLargeEnough := fun _ _ => true

/-- `selection.drive` read back as the JavaScript value
`state.getIn` at the selection.drive path yields. -/
def selDriveJS : Option String → JSValue
  | some d => .str d
  | none => .undefined

/-- The `availableDrives.find` lookup comparing each drive device
field to `dv` with strict equality. -/
def findDrive (drives : List Drive) (dv : JSValue) : Option Drive :=
  drives.find? (fun d => d.device == dv)

/-- `_.isEmpty` of `selection.os` read with default `{}` and `toJS()`. -/
def osIsEmpty : Option OS → Bool
  | some o => o.isEmptyObj
  | none => true

/-- The fold inside `_.maxBy(os.images, ...)`: lodash skips elements whose
iteratee value is `undefined`/`null`, keeps the first element otherwise,
and replaces it only on a strictly greater value. -/
def maxByRecommended (C : Constraints) (d : Drive) (images : List Image) :
    Option (Image × JSValue) :=
  images.foldl (fun acc im =>
    let current := if C.isDriveSizeRecommended d im then im.recommendedDriveSize
                   else JSValue.undefined
    if isNullish current then acc
    else match acc with
      | Option.none => some (im, current)
      | some (best, bestSize) =>
        if jsGt current bestSize then some (im, current) else some (best, bestSize))
    Option.none

/-- `getRecommendedImage(drive, os)`: the image among the candidate images
maximizing `recommendedDriveSize` subject to `isDriveSizeRecommended`. -/
def getRecommendedImage (C : Constraints) (d : Drive) (images : List Image) :
    Option Image :=
  (maxByRecommended C d images).map Prod.fst

/-- The per-drive body of the `_.forEach` in `SET_AVAILABLE_DRIVES`:
`if (recommended) { drive.recommendedImage = recommended; }`. -/
def applyRecommended (C : Constraints) (images : List Image) (d : Drive) : Drive :=
  match getRecommendedImage C d images with
  | some im => { d with recommendedImage := some im }
  | Option.none => d

/-- The validation chain at the head of the `SELECT_IMAGE` case; `some m`
is the thrown message. -/
def imageError (p : Image) : Option String :=
  if !truthy p.path then some "Missing image path"
  else if !isString p.path then some ("Invalid image path: " ++ jsToString p.path)
  else if !truthy p.size then some "Missing image size"
  else if !isNumber p.size then some ("Invalid image size: " ++ jsToString p.size)
  else if truthy p.url && !isString p.url then
    some ("Invalid image url: " ++ jsToString p.url)
  else if truthy p.name && !isString p.name then
    some ("Invalid image name: " ++ jsToString p.name)
  else if truthy p.logo && !isString p.logo then
    some ("Invalid image logo: " ++ jsToString p.logo)
  else if truthy p.version && !isString p.version then
    some ("Invalid image version: " ++ jsToString p.version)
  else if truthy p.downloadChecksum && !isString p.downloadChecksum then
    some ("Invalid image download checksum: " ++ jsToString p.downloadChecksum)
  else if truthy p.downloadChecksumType && !isString p.downloadChecksumType then
    some ("Invalid image download checksum: " ++ jsToString p.downloadChecksumType)
  else Option.none

/-- The `SELECT_IMAGE` payload the `SELECT_DRIVE` case builds from the
matched drive recommended image and the selected operating system. -/
def recommendedPayload (im : Image) (o : OS) : Image :=
  { path := im.url
    size := im.recommendedDriveSize
    logo := o.logo
    version := o.version
    downloadChecksum := im.checksum
    downloadChecksumType :=
      if truthy im.checksumType then im.checksumType else .str "md5" }

/-- `_.defaults(action.data, { cancelled: false })`: fills `cancelled`
only when it is `undefined`. -/
def defaultedResults (r : FlashResults) : FlashResults :=
  { r with cancelled := if r.cancelled = .undefined then .bool false else r.cancelled }

/-- The fixed setting keys of `DEFAULT_STATE.settings`. -/
def settingKeys : List String :=
  [ "unsafeMode", "errorReporting", "unmountOnSuccess",
    "validateWriteOnSuccess", "sleepUpdateCheck", "lastUpdateNotify",
    "downloadPath", "downloadSource" ]

/-- Whether the default settings map has the key. -/
def settingsHas (key : String) : Bool := settingKeys.contains key

/-- The `state.setIn` update of one settings entry, for a supported key. -/
def setSettingVal (st : Settings) (key : String) (v : JSValue) : Settings :=
  if key = "unsafeMode" then { st with unsafeMode := v }
  else if key = "errorReporting" then { st with errorReporting := v }
  else if key = "unmountOnSuccess" then { st with unmountOnSuccess := v }
  else if key = "validateWriteOnSuccess" then { st with validateWriteOnSuccess := v }
  else if key = "sleepUpdateCheck" then { st with sleepUpdateCheck := v }
  else if key = "lastUpdateNotify" then { st with lastUpdateNotify := v }
  else if key = "downloadPath" then { st with downloadPath := v }
  else if key = "downloadSource" then { st with downloadSource := v }
  else st

/-- Reading one setting back from the settings subtree. -/
def getSettingVal (st : Settings) (key : String) : JSValue :=
  if key = "unsafeMode" then st.unsafeMode
  else if key = "errorReporting" then st.errorReporting
  else if key = "unmountOnSuccess" then st.unmountOnSuccess
  else if key = "validateWriteOnSuccess" then st.validateWriteOnSuccess
  else if key = "sleepUpdateCheck" then st.sleepUpdateCheck
  else if key = "lastUpdateNotify" then st.lastUpdateNotify
  else if key = "downloadPath" then st.downloadPath
  else if key = "downloadSource" then st.downloadSource
  else .undefined

/-- The `SELECT_OS` case. `red` is the recursive reducer reference. The
re-dispatch of `SET_AVAILABLE_DRIVES` is outside any `_.attempt`, so its
failure aborts the dispatch; the derived re-selection step is wrapped in
`_.attempt` and its value, error object included, is returned directly.
The `.ok (.errObj e)` arm is unreachable because `SET_AVAILABLE_DRIVES`
never returns an error object; it is mapped to the same error object. -/
def selectOsCase (C : Constraints) (red : State → Action → RM) (s : State)
    (p : Payload) : RM :=
  match p with
  | .os o =>
    let selectedDrive := findDrive s.availableDrives (selDriveJS s.selectionDrive)
    let s1 := { s with selectionOs := some o }
    match red s1 ⟨"SET_AVAILABLE_DRIVES", .drives s.availableDrives⟩ with
    | .error e => .error e
    | .ok (.errObj e) => .ok (.errObj e)
    | .ok (.st s2) =>
      match selectedDrive with
      | Option.none => .ok (.st s2)
      | some d =>
        .ok (attempt (match getRecommendedImage C d o.images with
          | Option.none => red s2 ⟨"REMOVE_DRIVE", .none⟩
          | some _ => red s2 ⟨"SELECT_DRIVE", .drive d.device⟩))
  | .none => .error (.error "Missing selected operating system")
  | _ => .error .unmodeled

/-- The `SET_AVAILABLE_DRIVES` case. The incoming plain drive objects are
annotated in place before being stored; the `if (os)` guard of the
annotation loop is always true because `getIn` defaults to `{}`, so the
loop runs with the (possibly empty) candidate image list. -/
def setAvailableDrivesCase (C : Constraints) (red : State → Action → RM)
    (s : State) (p : Payload) : RM :=
  match p with
  | .drives ds =>
    let images := match s.selectionOs with
      | some o => o.images
      | Option.none => []
    let ds1 := ds.map (applyRecommended C images)
    let s1 := { s with availableDrives := ds1 }
    let img := s.selectionImage.getD {}
    let fallthrough : RM :=
      match s1.selectionDrive with
      | some dev =>
        -- `if (selectedDevice && !_.find(...))`: the selected device is
        -- itself tested for truthiness, so an empty-string id skips the
        -- stale-selection cleanup and survives re-enumeration
        if truthy (.str dev) && (ds1.find? (fun d => d.device == .str dev)).isNone then
          red s1 ⟨"REMOVE_DRIVE", .none⟩
        else .ok (.st s1)
      | Option.none => .ok (.st s1)
    match ds1 with
    | [d] =>
      if C.isDriveValid d img (.bool (!osIsEmpty s.selectionOs)) &&
         C.isDriveSizeRecommended d img && !C.isSystemDrive d then
        red s1 ⟨"SELECT_DRIVE", .drive d.device⟩
      else fallthrough
    | _ => fallthrough
  | .none => .error (.error "Missing drives")
  | _ => .error .unmodeled

/-- The `SET_FLASH_STATE` case. -/
def setFlashStateCase (s : State) (p : Payload) : RM :=
  if !s.isFlashing then
    .error (.error "Can\x27t set the flashing state when not flashing")
  else match p with
  | .flash f =>
    if !truthy f.type then .error (.error "Missing state type")
    else if !isString f.type then
      .error (.error ("Invalid state type: " ++ jsToString f.type))
    else if isNullish f.percentage then .error (.error "Missing state percentage")
    else if !isNumber f.percentage then
      .error (.error ("Invalid state percentage: " ++ jsToString f.percentage))
    else if !truthy f.eta && f.eta != .num 0 then .error (.error "Missing state eta")
    else if !isNumber f.eta then
      .error (.error ("Invalid state eta: " ++ jsToString f.eta))
    else if isNullish f.speed then .error (.error "Missing state speed")
    else .ok (.st { s with flashState := f })
  | .none => .error (.typeError "Cannot read properties of undefined")
  | _ => .error .unmodeled

/-- The `RESET_FLASH_STATE` case. -/
def resetFlashStateCase (s : State) : RM :=
  .ok (.st { s with flashState := DEFAULT_STATE.flashState
                    flashResults := DEFAULT_STATE.flashResults })

/-- The `SET_FLASHING_FLAG` case. -/
def setFlashingFlagCase (s : State) : RM :=
  .ok (.st { s with isFlashing := true
                    flashResults := DEFAULT_STATE.flashResults })

/-- The `UNSET_FLASHING_FLAG` case. -/
def unsetFlashingFlagCase (s : State) (p : Payload) : RM :=
  match p with
  | .results r0 =>
    let r := defaultedResults r0
    if !isBoolean r.cancelled then
      .error (.error ("Invalid results cancelled: " ++ jsToString r.cancelled))
    else if truthy r.cancelled && truthy r.sourceChecksum then
      .error (.error "The sourceChecksum value can\x27t exist if the flashing was cancelled")
    else if truthy r.sourceChecksum && !isString r.sourceChecksum then
      .error (.error ("Invalid results sourceChecksum: " ++ jsToString r.sourceChecksum))
    else if truthy r.errorCode && !isString r.errorCode && !isNumber r.errorCode then
      .error (.error ("Invalid results errorCode: " ++ jsToString r.errorCode))
    else .ok (.st { s with isFlashing := false
                           flashResults := r
                           flashState := DEFAULT_STATE.flashState })
  | .none => .error (.error "Missing results")
  | _ => .error .unmodeled

/-- The `SELECT_DRIVE` case. In the operating-system branch the cascaded
`SELECT_IMAGE` runs under `_.attempt`, and `.setIn` is then called on the
result; when the cascade failed that result is the caught error object,
which has no `setIn` method, hence the `TypeError`. -/
def selectDriveCase (C : Constraints) (red : State → Action → RM) (s : State)
    (p : Payload) : RM :=
  match p with
  | .drive dv =>
    if !truthy dv then .error (.error "Missing drive")
    else match dv with
    | .str devStr =>
      match findDrive s.availableDrives dv with
      | Option.none => .error (.error ("The drive is not available: " ++ jsToString dv))
      | some d =>
        if truthy d.«protected» then .error (.error "The drive is write-protected")
        else
          let localSel : RM :=
            match s.selectionImage with
            | some im =>
              if !C.isDriveLargeEnough d im then
                .error (.error "The drive is not large enough")
              else .ok (.st { s with selectionDrive := some devStr })
            | Option.none => .ok (.st { s with selectionDrive := some devStr })
          match s.selectionOs with
          | some o =>
            if o.isEmptyObj then localSel
            else match d.recommendedImage with
              | some im =>
                match attempt (red s ⟨"SELECT_IMAGE", .image (recommendedPayload im o)⟩) with
                | .st s2 => .ok (.st { s2 with selectionDrive := some devStr })
                | .errObj _ => .error (.typeError "attempt(...).setIn is not a function")
              | Option.none => .ok (.st { s with selectionDrive := some devStr })
          | Option.none => localSel
    | _ => .error (.error ("Invalid drive: " ++ jsToString dv))
  | .none => .error (.error "Missing drive")
  | _ => .error .unmodeled

/-- The `SELECT_IMAGE` case. The `if (!os)` test is on the raw selection
entry, so it is false for any present operating system, empty or not. -/
def selectImageCase (C : Constraints) (red : State → Action → RM) (s : State)
    (p : Payload) : RM :=
  match p with
  | .image im =>
    match imageError im with
    | some m => .error (.error m)
    | Option.none =>
      let selectedDrive := findDrive s.availableDrives (selDriveJS s.selectionDrive)
      match s.selectionOs with
      | Option.none =>
        match attempt (match selectedDrive with
          | some d =>
            if !(C.isDriveValid d im .undefined && C.isDriveSizeRecommended d im) then
              red s ⟨"REMOVE_DRIVE", .none⟩
            else .ok (.st s)
          | Option.none => .ok (.st s)) with
        | .st s2 => .ok (.st { s2 with selectionImage := some im })
        | .errObj _ => .error (.typeError "attempt(...).setIn is not a function")
      | some _ => .ok (.st { s with selectionImage := some im })
  | .none => .error (.typeError "Cannot read properties of undefined")
  | _ => .error .unmodeled

/-- The `REMOVE_OS` case. -/
def removeOsCase (red : State → Action → RM) (s : State) : RM :=
  match attempt (match s.selectionImage with
    | some _ => red s ⟨"REMOVE_IMAGE", .none⟩
    | Option.none => .ok (.st s)) with
  | .st s2 => .ok (.st { s2 with selectionOs := none })
  | .errObj _ => .error (.typeError "attempt(...).deleteIn is not a function")

/-- The `REMOVE_DRIVE` case. -/
def removeDriveCase (red : State → Action → RM) (s : State) : RM :=
  match attempt (if s.selectionOs.isSome then red s ⟨"REMOVE_IMAGE", .none⟩
                 else .ok (.st s)) with
  | .st s2 => .ok (.st { s2 with selectionDrive := none })
  | .errObj _ => .error (.typeError "attempt(...).deleteIn is not a function")

/-- The `REMOVE_IMAGE` case. -/
def removeImageCase (s : State) : RM :=
  .ok (.st { s with selectionImage := none })

/-- The `SET_SETTING` case. -/
def setSettingCase (s : State) (p : Payload) : RM :=
  match p with
  | .setting k v =>
    if !truthy k then .error (.error "Missing setting key")
    else match k with
    | .str key =>
      if !settingsHas key then .error (.error ("Unsupported setting: " ++ key))
      else if jsIsObject v then
        .error (.error ("Invalid setting value: " ++ jsToString v))
      else .ok (.st { s with settings := setSettingVal s.settings key v })
    | _ => .error (.error ("Invalid setting key: " ++ jsToString k))
  | .none => .error (.typeError "Cannot read properties of undefined")
  | _ => .error .unmodeled

/-- One step of `storeReducer`: the `switch` over the action type, with
`red` standing for the recursive invocations. Unknown types fall through
to the default case and return the state unchanged. -/
def reducerStep (C : Constraints) (red : State → Action → RM) (s : State)
    (a : Action) : RM :=
  if a.type = "SELECT_OS" then selectOsCase C red s a.data
  else if a.type = "SET_AVAILABLE_DRIVES" then setAvailableDrivesCase C red s a.data
  else if a.type = "SET_FLASH_STATE" then setFlashStateCase s a.data
  else if a.type = "RESET_FLASH_STATE" then resetFlashStateCase s
  else if a.type = "SET_FLASHING_FLAG" then setFlashingFlagCase s
  else if a.type = "UNSET_FLASHING_FLAG" then unsetFlashingFlagCase s a.data
  else if a.type = "SELECT_DRIVE" then selectDriveCase C red s a.data
  else if a.type = "SELECT_IMAGE" then selectImageCase C red s a.data
  else if a.type = "REMOVE_OS" then removeOsCase red s
  else if a.type = "REMOVE_DRIVE" then removeDriveCase red s
  else if a.type = "REMOVE_IMAGE" then removeImageCase s
  else if a.type = "SET_SETTING" then setSettingCase s a.data
  else .ok (.st s)

/-- The reducer with an explicit recursion-depth bound. -/
def reducerF (C : Constraints) : Nat → State → Action → RM
  | 0, _, _ => .error .noFuel
  | n + 1, s, a => reducerStep C (reducerF C n) s a

/-- `storeReducer(state, action)`: fuel 10 strictly dominates the deepest
static cascade chain (depth 6), so the fuel guard is unreachable. -/
def storeReducer (C : Constraints) (s : State) (a : Action) : RM :=
  reducerF C 10 s a

/-! ## Closed-form results of the recursive cases

The following definitions give recursion-free forms of each cascading
case; the correspondence theorems below prove them equal to the reducer,
so claims can be settled against them. -/

/-- Closed form of `REMOVE_IMAGE`. -/
def removeImageResult (s : State) : State :=
  { s with selectionImage := none }

/-- Closed form of `REMOVE_DRIVE`: clears `selection.drive`, and also
`selection.image` when an operating system is selected. -/
def removeDriveResult (s : State) : State :=
  { s with selectionDrive := none
           selectionImage := if s.selectionOs.isSome then none else s.selectionImage }

/-- Closed form of `REMOVE_OS`: clears `selection.os` and (via the
cascade when an image is present, trivially otherwise) `selection.image`. -/
def removeOsResult (s : State) : State :=
  { s with selectionOs := none, selectionImage := none }

/-- Closed form of `SELECT_IMAGE`. -/
def selectImageResult (C : Constraints) (s : State) (p : Image) : RM :=
  match imageError p with
  | some m => .error (.error m)
  | Option.none =>
    match s.selectionOs with
    | some _ => .ok (.st { s with selectionImage := some p })
    | Option.none =>
      match findDrive s.availableDrives (selDriveJS s.selectionDrive) with
      | some d =>
        if !(C.isDriveValid d p .undefined && C.isDriveSizeRecommended d p) then
          .ok (.st { removeDriveResult s with selectionImage := some p })
        else .ok (.st { s with selectionImage := some p })
      | Option.none => .ok (.st { s with selectionImage := some p })

/-- Closed form of `SELECT_DRIVE`. -/
def selectDriveResult (C : Constraints) (s : State) (dv : JSValue) : RM :=
  if !truthy dv then .error (.error "Missing drive")
  else match dv with
  | .str devStr =>
    match findDrive s.availableDrives dv with
    | Option.none => .error (.error ("The drive is not available: " ++ jsToString dv))
    | some d =>
      if truthy d.«protected» then .error (.error "The drive is write-protected")
      else
        let localSel : RM :=
          match s.selectionImage with
          | some im =>
            if !C.isDriveLargeEnough d im then
              .error (.error "The drive is not large enough")
            else .ok (.st { s with selectionDrive := some devStr })
          | Option.none => .ok (.st { s with selectionDrive := some devStr })
        match s.selectionOs with
        | some o =>
          if o.isEmptyObj then localSel
          else match d.recommendedImage with
            | some im =>
              match imageError (recommendedPayload im o) with
              | some _ => .error (.typeError "attempt(...).setIn is not a function")
              | Option.none =>
                .ok (.st { s with selectionImage := some (recommendedPayload im o)
                                  selectionDrive := some devStr })
            | Option.none => .ok (.st { s with selectionDrive := some devStr })
        | Option.none => localSel
  | _ => .error (.error ("Invalid drive: " ++ jsToString dv))

/-- Closed form of `SET_AVAILABLE_DRIVES`. -/
def setDrivesResult (C : Constraints) (s : State) (ds : List Drive) : RM :=
  let images := match s.selectionOs with
    | some o => o.images
    | Option.none => []
  let ds1 := ds.map (applyRecommended C images)
  let s1 := { s with availableDrives := ds1 }
  let img := s.selectionImage.getD {}
  let fallthrough : RM :=
    match s1.selectionDrive with
    | some dev =>
      if truthy (.str dev) && (ds1.find? (fun d => d.device == .str dev)).isNone then
        .ok (.st (removeDriveResult s1))
      else .ok (.st s1)
    | Option.none => .ok (.st s1)
  match ds1 with
  | [d] =>
    if C.isDriveValid d img (.bool (!osIsEmpty s.selectionOs)) &&
       C.isDriveSizeRecommended d img && !C.isSystemDrive d then
      selectDriveResult C s1 d.device
    else fallthrough
  | _ => fallthrough

/-- The derived re-selection step of `SELECT_OS` (the `_.attempt` body):
re-select or remove the previously selected drive under the new OS. -/
def derivedStep (C : Constraints) (s2 : State) (d : Drive) (o : OS) : RM :=
  match getRecommendedImage C d o.images with
  | Option.none => .ok (.st (removeDriveResult s2))
  | some _ => selectDriveResult C s2 d.device

/-- Closed form of `SELECT_OS`. -/
def selectOsResult (C : Constraints) (s : State) (o : OS) : RM :=
  let selectedDrive := findDrive s.availableDrives (selDriveJS s.selectionDrive)
  let s1 := { s with selectionOs := some o }
  match setDrivesResult C s1 s.availableDrives with
  | .error e => .error e
  | .ok (.errObj e) => .ok (.errObj e)
  | .ok (.st s2) =>
    match selectedDrive with
    | Option.none => .ok (.st s2)
    | some d => .ok (attempt (derivedStep C s2 d o))

/-- The incoming drive list after the `recommendedImage` annotation loop
of `SET_AVAILABLE_DRIVES`, against the current OS selection. -/
def annotatedDrives (C : Constraints) (s : State) (ds : List Drive) : List Drive :=
  ds.map (applyRecommended C (match s.selectionOs with
    | some o => o.images
    | Option.none => []))

/-- The auto-selection test of `SET_AVAILABLE_DRIVES`: exactly one
(annotated) incoming drive that is valid, size-recommended and not a
system drive against the current image/OS selection. -/
def autoSelects (C : Constraints) (s : State) (ds1 : List Drive) : Bool :=
  match ds1 with
  | [d] => C.isDriveValid d (s.selectionImage.getD {}) (.bool (!osIsEmpty s.selectionOs)) &&
           C.isDriveSizeRecommended d (s.selectionImage.getD {}) && !C.isSystemDrive d
  | _ => false

/-! ## Correspondence of the reducer with the closed forms -/

theorem reducerF_removeImage (C : Constraints) {n : Nat} (hn : 1 ≤ n) (s : State)
    (p : Payload) :
    reducerF C n s ⟨"REMOVE_IMAGE", p⟩ = .ok (.st (removeImageResult s)) := by
  obtain ⟨m, rfl⟩ : ∃ m, n = m + 1 := ⟨n - 1, by omega⟩
  rfl

theorem reducerF_removeDrive (C : Constraints) {n : Nat} (hn : 2 ≤ n) (s : State)
    (p : Payload) :
    reducerF C n s ⟨"REMOVE_DRIVE", p⟩ = .ok (.st (removeDriveResult s)) := by
  obtain ⟨m, rfl⟩ : ∃ m, n = m + 2 := ⟨n - 2, by omega⟩
  have h : reducerF C (m + 2) s ⟨"REMOVE_DRIVE", p⟩
      = removeDriveCase (reducerF C (m + 1)) s := rfl
  rw [h]
  cases hos : s.selectionOs with
  | none => simp [removeDriveCase, hos, attempt, removeDriveResult]
  | some o =>
    simp [removeDriveCase, hos, attempt, removeDriveResult,
      reducerF_removeImage C (by omega : 1 ≤ m + 1), removeImageResult]

theorem reducerF_removeOs (C : Constraints) {n : Nat} (hn : 2 ≤ n) (s : State)
    (p : Payload) :
    reducerF C n s ⟨"REMOVE_OS", p⟩ = .ok (.st (removeOsResult s)) := by
  obtain ⟨m, rfl⟩ : ∃ m, n = m + 2 := ⟨n - 2, by omega⟩
  have h : reducerF C (m + 2) s ⟨"REMOVE_OS", p⟩
      = removeOsCase (reducerF C (m + 1)) s := rfl
  rw [h]
  cases him : s.selectionImage with
  | none => simp [removeOsCase, him, attempt, removeOsResult]
  | some im =>
    simp [removeOsCase, him, attempt, removeOsResult,
      reducerF_removeImage C (by omega : 1 ≤ m + 1), removeImageResult]

theorem reducerF_selectImage (C : Constraints) {n : Nat} (hn : 3 ≤ n) (s : State)
    (p : Image) :
    reducerF C n s ⟨"SELECT_IMAGE", .image p⟩ = selectImageResult C s p := by
  obtain ⟨m, rfl⟩ : ∃ m, n = m + 3 := ⟨n - 3, by omega⟩
  have h : reducerF C (m + 3) s ⟨"SELECT_IMAGE", .image p⟩
      = selectImageCase C (reducerF C (m + 2)) s (.image p) := rfl
  rw [h]
  simp only [selectImageCase, selectImageResult]
  cases he : imageError p with
  | some m => rfl
  | none =>
    simp only
    cases hos : s.selectionOs with
    | some o => rfl
    | none =>
      cases hd : findDrive s.availableDrives (selDriveJS s.selectionDrive) with
      | none => simp [hos, hd, attempt]
      | some d =>
        by_cases hv : C.isDriveValid d p .undefined && C.isDriveSizeRecommended d p
        · simp [hos, hd, hv, attempt]
        · simp [hos, hd, hv, attempt,
            reducerF_removeDrive C (by omega : 2 ≤ m + 2)]

theorem reducerF_selectDrive (C : Constraints) {n : Nat} (hn : 4 ≤ n) (s : State)
    (dv : JSValue) :
    reducerF C n s ⟨"SELECT_DRIVE", .drive dv⟩ = selectDriveResult C s dv := by
  obtain ⟨m, rfl⟩ : ∃ m, n = m + 4 := ⟨n - 4, by omega⟩
  have h : reducerF C (m + 4) s ⟨"SELECT_DRIVE", .drive dv⟩
      = selectDriveCase C (reducerF C (m + 3)) s (.drive dv) := rfl
  rw [h]
  simp only [selectDriveCase, selectDriveResult]
  by_cases ht : truthy dv
  · cases dv with
    | str devStr =>
      simp only [ht, Bool.not_true, Bool.false_eq_true, if_false]
      cases hd : findDrive s.availableDrives (.str devStr) with
      | none => simp [hd]
      | some d =>
        by_cases hp : truthy d.«protected»
        · simp [hd, hp]
        · cases hos : s.selectionOs with
          | none => simp [hd, hp, hos]
          | some o =>
            by_cases hemp : o.isEmptyObj
            · simp [hd, hp, hos, hemp]
            · cases hri : d.recommendedImage with
              | none => simp [hd, hp, hos, hemp, hri]
              | some im =>
                simp only [hd]
                simp only [hp, hos, hemp, hri, Bool.false_eq_true, if_false]
                rw [reducerF_selectImage C (by omega : 3 ≤ m + 3)]
                cases hie : imageError (recommendedPayload im o) with
                | some msg => simp [hie, attempt, selectImageResult]
                | none => simp [hie, attempt, selectImageResult, hos]
    | undefined => simp [truthy] at ht
    | null => simp [truthy] at ht
    | bool b => simp [ht]
    | num k => simp [ht]
    | objLike i => simp [ht]
  · simp [ht]

theorem reducerF_setDrives (C : Constraints) {n : Nat} (hn : 5 ≤ n) (s : State)
    (ds : List Drive) :
    reducerF C n s ⟨"SET_AVAILABLE_DRIVES", .drives ds⟩ = setDrivesResult C s ds := by
  obtain ⟨m, rfl⟩ : ∃ m, n = m + 5 := ⟨n - 5, by omega⟩
  have h : reducerF C (m + 5) s ⟨"SET_AVAILABLE_DRIVES", .drives ds⟩
      = setAvailableDrivesCase C (reducerF C (m + 4)) s (.drives ds) := rfl
  rw [h]
  simp only [setAvailableDrivesCase, setDrivesResult]
  cases hos : s.selectionOs with
  | none =>
    simp only [hos]
    rcases hds : ds.map (applyRecommended C []) with _ | ⟨d, _ | ⟨d2, rest⟩⟩
    · cases hsel : s.selectionDrive <;>
        simp [hsel, reducerF_removeDrive C (by omega : 2 ≤ m + 4)]
    · dsimp only
      by_cases hc : C.isDriveValid d (s.selectionImage.getD {}) (.bool (!osIsEmpty none)) &&
          C.isDriveSizeRecommended d (s.selectionImage.getD {}) && !C.isSystemDrive d
      · rw [if_pos hc, if_pos hc, reducerF_selectDrive C (by omega : 4 ≤ m + 4)]
      · rw [if_neg hc, if_neg hc]
        cases hsel : s.selectionDrive with
        | none => simp [hsel]
        | some dev =>
          cases hfind : List.find? (fun x => x.device == JSValue.str dev) [d] with
          | none => simp [hsel, hfind, reducerF_removeDrive C (by omega : 2 ≤ m + 4)]
          | some dd => simp [hsel, hfind]
    · cases hsel : s.selectionDrive with
      | none => simp [hsel]
      | some dev =>
        cases hfind : List.find? (fun x => x.device == JSValue.str dev) (d :: d2 :: rest) with
        | none => simp [hsel, hfind, reducerF_removeDrive C (by omega : 2 ≤ m + 4)]
        | some dd => simp [hsel, hfind]
  | some o =>
    simp only [hos]
    rcases hds : ds.map (applyRecommended C o.images) with _ | ⟨d, _ | ⟨d2, rest⟩⟩
    · cases hsel : s.selectionDrive <;>
        simp [hsel, reducerF_removeDrive C (by omega : 2 ≤ m + 4)]
    · dsimp only
      by_cases hc : C.isDriveValid d (s.selectionImage.getD {}) (.bool (!osIsEmpty (some o))) &&
          C.isDriveSizeRecommended d (s.selectionImage.getD {}) && !C.isSystemDrive d
      · rw [if_pos hc, if_pos hc, reducerF_selectDrive C (by omega : 4 ≤ m + 4)]
      · rw [if_neg hc, if_neg hc]
        cases hsel : s.selectionDrive with
        | none => simp [hsel]
        | some dev =>
          cases hfind : List.find? (fun x => x.device == JSValue.str dev) [d] with
          | none => simp [hsel, hfind, reducerF_removeDrive C (by omega : 2 ≤ m + 4)]
          | some dd => simp [hsel, hfind]
    · cases hsel : s.selectionDrive with
      | none => simp [hsel]
      | some dev =>
        cases hfind : List.find? (fun x => x.device == JSValue.str dev) (d :: d2 :: rest) with
        | none => simp [hsel, hfind, reducerF_removeDrive C (by omega : 2 ≤ m + 4)]
        | some dd => simp [hsel, hfind]

theorem reducerF_selectOs (C : Constraints) {n : Nat} (hn : 6 ≤ n) (s : State)
    (o : OS) :
    reducerF C n s ⟨"SELECT_OS", .os o⟩ = selectOsResult C s o := by
  obtain ⟨m, rfl⟩ : ∃ m, n = m + 6 := ⟨n - 6, by omega⟩
  have h : reducerF C (m + 6) s ⟨"SELECT_OS", .os o⟩
      = selectOsCase C (reducerF C (m + 5)) s (.os o) := rfl
  rw [h]
  simp only [selectOsCase, selectOsResult]
  rw [reducerF_setDrives C (by omega : 5 ≤ m + 5)]
  cases hres : setDrivesResult C { s with selectionOs := some o } s.availableDrives with
  | error e => simp
  | ok r =>
    cases r with
    | errObj e => simp
    | st s2 =>
      cases hsd : findDrive s.availableDrives (selDriveJS s.selectionDrive) with
      | none => simp [hsd]
      | some d =>
        simp only [hsd]
        cases hri : getRecommendedImage C d o.images with
        | none =>
          simp [hri, derivedStep, reducerF_removeDrive C (by omega : 2 ≤ m + 5)]
        | some im =>
          simp [hri, derivedStep, reducerF_selectDrive C (by omega : 4 ≤ m + 5)]

/-! ## Frame and invariant predicates -/

/-- The drive-selection invariant, decidably: if `selection.drive` is set
then it is a truthy (non-empty) device identifier and some available
drive has exactly that identifier. The non-emptiness strengthening is
needed because the stale-selection cleanup of `SET_AVAILABLE_DRIVES` is
guarded by the selected device truthiness: bare membership alone would
not be preserved through re-enumeration from an empty-string selection,
while `SELECT_DRIVE` rejects empty ids, so every selection it writes is
non-empty. -/
def invB (s : State) : Bool :=
  match s.selectionDrive with
  | some dev => truthy (.str dev) && s.availableDrives.any (fun d => d.device == .str dev)
  | none => true

/-- The invariant on a reducer value: a state must satisfy `invB`; an
error object carries no selection, so it is unconstrained. -/
def invR : RResult → Prop
  | .st t => invB t = true
  | .errObj _ => True

/-- The invariant on a reducer outcome; thrown errors produce no state. -/
def invOk : RM → Prop
  | .ok r => invR r
  | .error _ => True

/-- Settings preservation on a reducer outcome. -/
def presSettings (s : State) : RM → Prop
  | .ok (.st t) => t.settings = s.settings
  | _ => True

/-- `selection.os` preservation on a reducer outcome. -/
def presOs (s : State) : RM → Prop
  | .ok (.st t) => t.selectionOs = s.selectionOs
  | _ => True

theorem findDrive_any {drives : List Drive} {dv : JSValue} {d : Drive}
    (h : findDrive drives dv = some d) :
    drives.any (fun x => x.device == dv) = true := by
  unfold findDrive at h
  exact List.any_eq_true.mpr
    ⟨d, List.mem_of_find?_eq_some h, by simpa using List.find?_some h⟩

theorem attempt_eq_st {x : RM} {t : State} (h : attempt x = .st t) :
    x = .ok (.st t) := by
  cases x with
  | ok r => rw [show attempt (Except.ok r) = r from rfl] at h; rw [h]
  | error e => simp [attempt] at h

/-! ### Frame lemmas for the closed forms -/

theorem presSettings_selectImageResult (C : Constraints) (s : State) (p : Image) :
    presSettings s (selectImageResult C s p) := by
  unfold selectImageResult
  repeat' (first | split | dsimp only)
  all_goals trivial

theorem presOs_selectImageResult (C : Constraints) (s : State) (p : Image) :
    presOs s (selectImageResult C s p) := by
  unfold selectImageResult
  repeat' (first | split | dsimp only)
  all_goals trivial

theorem presSettings_selectDriveResult (C : Constraints) (s : State) (dv : JSValue) :
    presSettings s (selectDriveResult C s dv) := by
  unfold selectDriveResult
  repeat' (first | split | dsimp only)
  all_goals trivial

theorem presOs_selectDriveResult (C : Constraints) (s : State) (dv : JSValue) :
    presOs s (selectDriveResult C s dv) := by
  unfold selectDriveResult
  repeat' (first | split | dsimp only)
  all_goals trivial

theorem presSettings_setDrivesResult (C : Constraints) (s : State) (ds : List Drive) :
    presSettings s (setDrivesResult C s ds) := by
  unfold setDrivesResult
  repeat' (first | split | dsimp only)
  all_goals first
    | trivial
    | exact presSettings_selectDriveResult C _ _

theorem presOs_setDrivesResult (C : Constraints) (s : State) (ds : List Drive) :
    presOs s (setDrivesResult C s ds) := by
  unfold setDrivesResult
  repeat' (first | split | dsimp only)
  all_goals first
    | trivial
    | exact presOs_selectDriveResult C _ _

theorem presSettings_derivedStep (C : Constraints) (s2 : State) (d : Drive) (o : OS) :
    presSettings s2 (derivedStep C s2 d o) := by
  unfold derivedStep
  split
  · trivial
  · exact presSettings_selectDriveResult C _ _

theorem presOs_derivedStep (C : Constraints) (s2 : State) (d : Drive) (o : OS) :
    presOs s2 (derivedStep C s2 d o) := by
  unfold derivedStep
  split
  · trivial
  · exact presOs_selectDriveResult C _ _

theorem presSettings_selectOsResult (C : Constraints) (s : State) (o : OS) :
    presSettings s (selectOsResult C s o) := by
  unfold selectOsResult
  dsimp only
  split
  · trivial
  · trivial
  · rename_i s2 heq
    split
    · have h2 := presSettings_setDrivesResult C { s with selectionOs := some o }
        s.availableDrives
      rw [heq] at h2
      exact h2
    · rename_i d hd
      cases hatt : attempt (derivedStep C s2 d o) with
      | errObj e => trivial
      | st t =>
        have h2 := presSettings_setDrivesResult C { s with selectionOs := some o }
          s.availableDrives
        rw [heq] at h2
        have h3 := presSettings_derivedStep C s2 d o
        rw [attempt_eq_st hatt] at h3
        show t.settings = s.settings
        exact h3.trans h2

/-! ### Invariant lemmas -/

theorem any_of_find?_isNone_eq_false {α : Type} {p : α → Bool} {l : List α}
    (h : (l.find? p).isNone = false) : l.any p = true := by
  cases hf : l.find? p with
  | none => rw [hf] at h; simp at h
  | some x =>
    exact List.any_eq_true.mpr
      ⟨x, List.mem_of_find?_eq_some hf, by simpa using List.find?_some hf⟩

theorem inv_selectDriveResult (C : Constraints) (s : State) (dv : JSValue) :
    invOk (selectDriveResult C s dv) := by
  unfold selectDriveResult
  repeat' (first | split | dsimp only)
  all_goals first
    | trivial
    | (show (_ && _) = true
       exact Bool.and_eq_true _ _ ▸ ⟨by simp_all, findDrive_any (by assumption)⟩)

theorem invB_keep {s : State} {ds1 : List Drive} {dev : String}
    (h : invB s = true) (hsel : s.selectionDrive = some dev)
    (hc : ¬((truthy (JSValue.str dev)
        && (ds1.find? (fun d => d.device == JSValue.str dev)).isNone) = true)) :
    invB { s with availableDrives := ds1 } = true := by
  have h2 := h
  unfold invB at h2 ⊢
  dsimp only
  rw [hsel] at h2 ⊢
  dsimp only at h2 ⊢
  rw [Bool.and_eq_true] at h2 ⊢
  refine ⟨h2.1, ?_⟩
  apply any_of_find?_isNone_eq_false
  cases hb : (ds1.find? (fun d => d.device == JSValue.str dev)).isNone with
  | false => rfl
  | true => exact absurd (by simp [h2.1, hb]) hc

theorem inv_setDrivesResult (C : Constraints) (s : State) (ds : List Drive)
    (h : invB s = true) : invOk (setDrivesResult C s ds) := by
  unfold setDrivesResult
  repeat' (first | split | dsimp only)
  all_goals first
    | trivial
    | exact inv_selectDriveResult C _ _
    | exact invB_keep h (by assumption) (by assumption)
    | (show invB _ = true
       unfold invB
       dsimp only
       simp [*])

theorem inv_derivedStep (C : Constraints) (s2 : State) (d : Drive) (o : OS) :
    invOk (derivedStep C s2 d o) := by
  unfold derivedStep
  split
  · trivial
  · exact inv_selectDriveResult C _ _

theorem inv_selectOsResult (C : Constraints) (s : State) (o : OS)
    (h : invB s = true) : invOk (selectOsResult C s o) := by
  unfold selectOsResult
  dsimp only
  split
  · trivial
  · trivial
  · rename_i s2 heq
    split
    · have h2 := inv_setDrivesResult C { s with selectionOs := some o }
        s.availableDrives h
      rw [heq] at h2
      exact h2
    · rename_i d hd
      cases hatt : attempt (derivedStep C s2 d o) with
      | errObj e => trivial
      | st t =>
        have h3 := inv_derivedStep C s2 d o
        rw [attempt_eq_st hatt] at h3
        exact h3

theorem inv_selectImageResult (C : Constraints) (s : State) (p : Image)
    (h : invB s = true) : invOk (selectImageResult C s p) := by
  unfold selectImageResult
  repeat' (first | split | dsimp only)
  all_goals trivial

theorem inv_setFlashStateCase (s : State) (p : Payload) (h : invB s = true) :
    invOk (setFlashStateCase s p) := by
  unfold setFlashStateCase
  repeat' (first | split | dsimp only)
  all_goals trivial

theorem inv_unsetFlashingFlagCase (s : State) (p : Payload) (h : invB s = true) :
    invOk (unsetFlashingFlagCase s p) := by
  unfold unsetFlashingFlagCase
  repeat' (first | split | dsimp only)
  all_goals trivial

theorem inv_setSettingCase (s : State) (p : Payload) (h : invB s = true) :
    invOk (setSettingCase s p) := by
  unfold setSettingCase
  repeat' (first | split | dsimp only)
  all_goals trivial

theorem presSettings_setFlashStateCase (s : State) (p : Payload) :
    presSettings s (setFlashStateCase s p) := by
  unfold setFlashStateCase
  repeat' (first | split | dsimp only)
  all_goals trivial

theorem presSettings_unsetFlashingFlagCase (s : State) (p : Payload) :
    presSettings s (unsetFlashingFlagCase s p) := by
  unfold unsetFlashingFlagCase
  repeat' (first | split | dsimp only)
  all_goals trivial

/-- Dispatching an action whose type is not in the catalog returns the
state unchanged (the `switch` default case). -/
theorem storeReducer_unknown (C : Constraints) (s : State) (p : Payload)
    {ty : String} (hmem : ty ∉ actionTypes) :
    storeReducer C s ⟨ty, p⟩ = .ok (.st s) := by
  simp only [actionTypes, List.mem_cons, List.not_mem_nil, or_false, not_or] at hmem
  obtain ⟨n1, n2, n3, n4, n5, n6, n7, n8, n9, n10, n11, n12⟩ := hmem
  show reducerStep C (reducerF C 9) s ⟨ty, p⟩ = .ok (.st s)
  simp [reducerStep, n1, n2, n3, n4, n5, n6, n7, n8, n9, n10, n11, n12]

/-- The drive-selection invariant is preserved by every dispatch that
returns, for every constraints policy. -/
theorem inv_storeReducer (C : Constraints) (s : State) (ty : String) (p : Payload)
    (h : invB s = true) : invOk (storeReducer C s ⟨ty, p⟩) := by
  by_cases hmem : ty ∈ actionTypes
  · simp only [actionTypes, List.mem_cons, List.not_mem_nil, or_false] at hmem
    rcases hmem with rfl | rfl | rfl | rfl | rfl | rfl | rfl | rfl | rfl | rfl | rfl | rfl
    · -- SET_AVAILABLE_DRIVES
      cases p <;> try trivial
      rename_i ds
      rw [show storeReducer C s ⟨"SET_AVAILABLE_DRIVES", .drives ds⟩
          = setDrivesResult C s ds from
        reducerF_setDrives C (by norm_num) s ds]
      exact inv_setDrivesResult C s ds h
    · -- SET_FLASH_STATE
      exact inv_setFlashStateCase s p h
    · -- RESET_FLASH_STATE
      exact h
    · -- SET_FLASHING_FLAG
      exact h
    · -- UNSET_FLASHING_FLAG
      exact inv_unsetFlashingFlagCase s p h
    · -- SELECT_OS
      cases p <;> try trivial
      rename_i o
      rw [show storeReducer C s ⟨"SELECT_OS", .os o⟩ = selectOsResult C s o from
        reducerF_selectOs C (by norm_num) s o]
      exact inv_selectOsResult C s o h
    · -- SELECT_DRIVE
      cases p <;> try trivial
      rename_i dv
      rw [show storeReducer C s ⟨"SELECT_DRIVE", .drive dv⟩
          = selectDriveResult C s dv from
        reducerF_selectDrive C (by norm_num) s dv]
      exact inv_selectDriveResult C s dv
    · -- SELECT_IMAGE
      cases p <;> try trivial
      rename_i im
      rw [show storeReducer C s ⟨"SELECT_IMAGE", .image im⟩
          = selectImageResult C s im from
        reducerF_selectImage C (by norm_num) s im]
      exact inv_selectImageResult C s im h
    · -- REMOVE_OS
      rw [show storeReducer C s ⟨"REMOVE_OS", p⟩ = .ok (.st (removeOsResult s)) from
        reducerF_removeOs C (by norm_num) s p]
      exact h
    · -- REMOVE_DRIVE
      rw [show storeReducer C s ⟨"REMOVE_DRIVE", p⟩
          = .ok (.st (removeDriveResult s)) from
        reducerF_removeDrive C (by norm_num) s p]
      trivial
    · -- REMOVE_IMAGE
      exact h
    · -- SET_SETTING
      exact inv_setSettingCase s p h
  · rw [storeReducer_unknown C s p hmem]
    exact h

/-- The settings subtree is preserved by every dispatch other than
`SET_SETTING`, for every constraints policy. -/
theorem settings_storeReducer (C : Constraints) (s : State) (ty : String)
    (p : Payload) (hty : ty ≠ "SET_SETTING") :
    presSettings s (storeReducer C s ⟨ty, p⟩) := by
  by_cases hmem : ty ∈ actionTypes
  · simp only [actionTypes, List.mem_cons, List.not_mem_nil, or_false] at hmem
    rcases hmem with rfl | rfl | rfl | rfl | rfl | rfl | rfl | rfl | rfl | rfl | rfl | rfl
    · -- SET_AVAILABLE_DRIVES
      cases p <;> try trivial
      rename_i ds
      rw [show storeReducer C s ⟨"SET_AVAILABLE_DRIVES", .drives ds⟩
          = setDrivesResult C s ds from
        reducerF_setDrives C (by norm_num) s ds]
      exact presSettings_setDrivesResult C s ds
    · -- SET_FLASH_STATE
      exact presSettings_setFlashStateCase s p
    · -- RESET_FLASH_STATE
      exact rfl
    · -- SET_FLASHING_FLAG
      exact rfl
    · -- UNSET_FLASHING_FLAG
      exact presSettings_unsetFlashingFlagCase s p
    · -- SELECT_OS
      cases p <;> try trivial
      rename_i o
      rw [show storeReducer C s ⟨"SELECT_OS", .os o⟩ = selectOsResult C s o from
        reducerF_selectOs C (by norm_num) s o]
      exact presSettings_selectOsResult C s o
    · -- SELECT_DRIVE
      cases p <;> try trivial
      rename_i dv
      rw [show storeReducer C s ⟨"SELECT_DRIVE", .drive dv⟩
          = selectDriveResult C s dv from
        reducerF_selectDrive C (by norm_num) s dv]
      exact presSettings_selectDriveResult C s dv
    · -- SELECT_IMAGE
      cases p <;> try trivial
      rename_i im
      rw [show storeReducer C s ⟨"SELECT_IMAGE", .image im⟩
          = selectImageResult C s im from
        reducerF_selectImage C (by norm_num) s im]
      exact presSettings_selectImageResult C s im
    · -- REMOVE_OS
      rw [show storeReducer C s ⟨"REMOVE_OS", p⟩ = .ok (.st (removeOsResult s)) from
        reducerF_removeOs C (by norm_num) s p]
      exact rfl
    · -- REMOVE_DRIVE
      rw [show storeReducer C s ⟨"REMOVE_DRIVE", p⟩
          = .ok (.st (removeDriveResult s)) from
        reducerF_removeDrive C (by norm_num) s p]
      exact rfl
    · -- REMOVE_IMAGE
      exact rfl
    · -- SET_SETTING
      exact absurd rfl hty
  · rw [storeReducer_unknown C s p hmem]
    exact rfl



/-! ## Small helper facts -/

theorem storeReducer_setFlash (C : Constraints) (s : State) (p : Payload) :
    storeReducer C s ⟨"SET_FLASH_STATE", p⟩ = setFlashStateCase s p := rfl

theorem storeReducer_unsetFlag (C : Constraints) (s : State) (p : Payload) :
    storeReducer C s ⟨"UNSET_FLASHING_FLAG", p⟩ = unsetFlashingFlagCase s p := rfl

theorem storeReducer_setSetting (C : Constraints) (s : State) (p : Payload) :
    storeReducer C s ⟨"SET_SETTING", p⟩ = setSettingCase s p := rfl

theorem device_applyRecommended (C : Constraints) (imgs : List Image) (d : Drive) :
    (applyRecommended C imgs d).device = d.device := by
  unfold applyRecommended
  split <;> rfl

theorem isNullish_of_isNumber {v : JSValue} (h : isNumber v = true) :
    isNullish v = false := by
  cases v <;> simp_all [isNumber, isNullish]

theorem eta_missing_check {v : JSValue} (h : isNumber v = true) :
    (!truthy v && v != JSValue.num 0) = false := by
  cases v <;> simp_all [isNumber, truthy]

/-! ## The claims -/

/-- C6: `SET_FLASH_STATE` throws whenever `isFlashing` is false; when
`isFlashing` is true and the payload has a non-empty string `type`, a
number `percentage`, a number `eta` (zero allowed), and a `speed` that is
neither `undefined` nor `null`, it replaces `flashState` wholesale with
the payload. -/
theorem claim_C6 (C : Constraints) (s : State) :
    (∀ p : Payload, s.isFlashing = false →
      storeReducer C s ⟨"SET_FLASH_STATE", p⟩
        = .error (.error "Can\x27t set the flashing state when not flashing"))
    ∧ (∀ f : FlashPayload, s.isFlashing = true →
        truthy f.type = true → isString f.type = true →
        isNumber f.percentage = true → isNumber f.eta = true →
        isNullish f.speed = false →
        storeReducer C s ⟨"SET_FLASH_STATE", .flash f⟩
          = .ok (.st { s with flashState := f })) := by
  constructor
  · intro p hfl
    rw [storeReducer_setFlash]
    unfold setFlashStateCase
    simp [hfl]
  · intro f hfl ht hts hpn hen hsn
    rw [storeReducer_setFlash]
    unfold setFlashStateCase
    simp [hfl, ht, hts, hpn, hen, hsn,
      isNullish_of_isNumber hpn, eta_missing_check hen]

/-- C6 witness: scenario C of the specification. -/
theorem claim_C6_witness :
    storeReducer permissive { DEFAULT_STATE with isFlashing := true }
        ⟨"SET_FLASH_STATE",
          .flash { type := .str "decompressing"
                   percentage := .num 50
                   eta := .num 30
                   speed := .num 1000000 }⟩
      = .ok (.st { DEFAULT_STATE with
          isFlashing := true
          flashState := { type := .str "decompressing"
                          percentage := .num 50
                          eta := .num 30
                          speed := .num 1000000 } }) :=
  (claim_C6 permissive { DEFAULT_STATE with isFlashing := true }).2
    { type := .str "decompressing"
      percentage := .num 50
      eta := .num 30
      speed := .num 1000000 }
    rfl (by decide) (by decide) (by decide) (by decide) (by decide)

/-- C8: any action whose type is not one of the twelve catalog kinds is a
no-op: the reducer returns the state unchanged and does not throw. -/
theorem claim_C8 (C : Constraints) (s : State) (tp : String) (p : Payload)
    (hmem : tp ∉ actionTypes) :
    storeReducer C s ⟨tp, p⟩ = .ok (.st s) :=
  storeReducer_unknown C s p hmem

/-- C8 witness at a concrete unknown action type. -/
theorem claim_C8_witness :
    storeReducer permissive DEFAULT_STATE ⟨"SOME_FUTURE_KIND", .none⟩
      = .ok (.st DEFAULT_STATE) :=
  claim_C8 permissive DEFAULT_STATE "SOME_FUTURE_KIND" .none (by decide)

/-- C9: for every catalog action other than `SET_SETTING`, the settings
subtree of the state returned by the reducer equals the settings subtree
of the input state. -/
theorem claim_C9 (C : Constraints) (s : State) (a : Action) (t : State)
    (hmem : a.type ∈ actionTypes) (hty : a.type ≠ "SET_SETTING")
    (h : storeReducer C s a = .ok (.st t)) :
    t.settings = s.settings := by
  obtain ⟨ty, p⟩ := a
  have hp := settings_storeReducer C s ty p hty
  rw [h] at hp
  exact hp

/-- C9 witness: `SET_FLASHING_FLAG` leaves the settings untouched. -/
theorem claim_C9_witness :
    ({ DEFAULT_STATE with isFlashing := true } : State).settings
      = DEFAULT_STATE.settings :=
  claim_C9 permissive DEFAULT_STATE ⟨"SET_FLASHING_FLAG", .none⟩
    { DEFAULT_STATE with isFlashing := true } (by decide) (by decide) rfl

/-- C10: `SELECT_IMAGE` treats falsy required fields as missing: with a
valid path, a payload whose `size` is the number `0` throws
`Missing image size`; a payload whose `path` is the empty string throws
`Missing image path`. -/
theorem claim_C10 (C : Constraints) (s : State) (im : Image) :
    (im.size = .num 0 → truthy im.path = true → isString im.path = true →
      storeReducer C s ⟨"SELECT_IMAGE", .image im⟩
        = .error (.error "Missing image size"))
    ∧ (im.path = .str "" →
      storeReducer C s ⟨"SELECT_IMAGE", .image im⟩
        = .error (.error "Missing image path")) := by
  constructor
  · intro hsz hp hps
    rw [show storeReducer C s ⟨"SELECT_IMAGE", .image im⟩ = selectImageResult C s im from
      reducerF_selectImage C (by norm_num) s im]
    have he : imageError im = some "Missing image size" := by
      have h0 : truthy (JSValue.num 0) = false := rfl
      unfold imageError
      simp [hp, hps, hsz, h0]
    unfold selectImageResult
    rw [he]
  · intro hp
    rw [show storeReducer C s ⟨"SELECT_IMAGE", .image im⟩ = selectImageResult C s im from
      reducerF_selectImage C (by norm_num) s im]
    have he : imageError im = some "Missing image path" := by
      have h0 : truthy (JSValue.str "") = false := rfl
      unfold imageError
      simp [hp, h0]
    unfold selectImageResult
    rw [he]

/-- C10 witness: a payload with path `"x"` and size `0`. -/
theorem claim_C10_witness :
    storeReducer permissive DEFAULT_STATE
        ⟨"SELECT_IMAGE", .image { path := .str "x", size := .num 0 }⟩
      = .error (.error "Missing image size") :=
  (claim_C10 permissive DEFAULT_STATE { path := .str "x", size := .num 0 }).1
    rfl (by decide) (by decide)

/-- C5 (amended): `UNSET_FLASHING_FLAG` throws when data is absent, when
`cancelled` (defaulted to `false` when `undefined`) is not boolean, when
`cancelled` is true and `sourceChecksum` is truthy, when `sourceChecksum`
is truthy but not a string, or when `errorCode` is truthy but neither
string nor number; on a valid payload it sets `isFlashing` to false,
replaces `flashResults` with the (defaulted) payload, and resets
`flashState` to the default record. The source tests truthiness, not
presence, so present-but-falsy `sourceChecksum`/`errorCode` values are
accepted. -/
theorem claim_C5 (C : Constraints) (s : State) :
    (storeReducer C s ⟨"UNSET_FLASHING_FLAG", .none⟩
      = .error (.error "Missing results"))
    ∧ (∀ r0 : FlashResults, isBoolean (defaultedResults r0).cancelled = false →
        storeReducer C s ⟨"UNSET_FLASHING_FLAG", .results r0⟩
          = .error (.error ("Invalid results cancelled: "
              ++ jsToString (defaultedResults r0).cancelled)))
    ∧ (∀ r0 : FlashResults, isBoolean (defaultedResults r0).cancelled = true →
        (truthy (defaultedResults r0).cancelled
          && truthy (defaultedResults r0).sourceChecksum) = true →
        storeReducer C s ⟨"UNSET_FLASHING_FLAG", .results r0⟩
          = .error (.error
              "The sourceChecksum value can\x27t exist if the flashing was cancelled"))
    ∧ (∀ r0 : FlashResults, isBoolean (defaultedResults r0).cancelled = true →
        (truthy (defaultedResults r0).cancelled
          && truthy (defaultedResults r0).sourceChecksum) = false →
        (truthy (defaultedResults r0).sourceChecksum
          && !isString (defaultedResults r0).sourceChecksum) = true →
        storeReducer C s ⟨"UNSET_FLASHING_FLAG", .results r0⟩
          = .error (.error ("Invalid results sourceChecksum: "
              ++ jsToString (defaultedResults r0).sourceChecksum)))
    ∧ (∀ r0 : FlashResults, isBoolean (defaultedResults r0).cancelled = true →
        (truthy (defaultedResults r0).cancelled
          && truthy (defaultedResults r0).sourceChecksum) = false →
        (truthy (defaultedResults r0).sourceChecksum
          && !isString (defaultedResults r0).sourceChecksum) = false →
        (truthy (defaultedResults r0).errorCode
          && !isString (defaultedResults r0).errorCode
          && !isNumber (defaultedResults r0).errorCode) = true →
        storeReducer C s ⟨"UNSET_FLASHING_FLAG", .results r0⟩
          = .error (.error ("Invalid results errorCode: "
              ++ jsToString (defaultedResults r0).errorCode)))
    ∧ (∀ r0 : FlashResults, isBoolean (defaultedResults r0).cancelled = true →
        (truthy (defaultedResults r0).cancelled
          && truthy (defaultedResults r0).sourceChecksum) = false →
        (truthy (defaultedResults r0).sourceChecksum
          && !isString (defaultedResults r0).sourceChecksum) = false →
        (truthy (defaultedResults r0).errorCode
          && !isString (defaultedResults r0).errorCode
          && !isNumber (defaultedResults r0).errorCode) = false →
        storeReducer C s ⟨"UNSET_FLASHING_FLAG", .results r0⟩
          = .ok (.st { s with isFlashing := false
                              flashResults := defaultedResults r0
                              flashState := DEFAULT_STATE.flashState })) := by
  refine ⟨rfl, ?_, ?_, ?_, ?_, ?_⟩
  · intro r0 h1
    rw [storeReducer_unsetFlag]
    unfold unsetFlashingFlagCase
    dsimp only
    rw [if_pos (by simp [h1])]
  · intro r0 h1 h2
    rw [storeReducer_unsetFlag]
    unfold unsetFlashingFlagCase
    dsimp only
    rw [if_neg (by simp [h1]), if_pos h2]
  · intro r0 h1 h2 h3
    rw [storeReducer_unsetFlag]
    unfold unsetFlashingFlagCase
    dsimp only
    rw [if_neg (by simp [h1]), if_neg (by simp [h2]), if_pos h3]
  · intro r0 h1 h2 h3 h4
    rw [storeReducer_unsetFlag]
    unfold unsetFlashingFlagCase
    dsimp only
    rw [if_neg (by simp [h1]), if_neg (by simp [h2]), if_neg (by simp [h3]),
      if_pos h4]
  · intro r0 h1 h2 h3 h4
    rw [storeReducer_unsetFlag]
    unfold unsetFlashingFlagCase
    dsimp only
    rw [if_neg (by simp [h1]), if_neg (by simp [h2]), if_neg (by simp [h3]),
      if_neg (by simp [h4])]

/-- C5 witness: scenario D of the specification, `{cancelled: true}`. -/
theorem claim_C5_witness :
    storeReducer permissive { DEFAULT_STATE with isFlashing := true }
        ⟨"UNSET_FLASHING_FLAG", .results { cancelled := .bool true }⟩
      = .ok (.st { DEFAULT_STATE with
          isFlashing := false
          flashResults := { cancelled := .bool true }
          flashState := DEFAULT_STATE.flashState }) :=
  (claim_C5 permissive { DEFAULT_STATE with isFlashing := true }).2.2.2.2.2
    { cancelled := .bool true } (by decide) (by decide) (by decide) (by decide)

/-- C5 counterexample: the payload `{sourceChecksum: 0}` has
`sourceChecksum` present and not a string, yet the dispatch succeeds
instead of throwing, because the check tests truthiness. -/
theorem claim_C5_counterexample :
    storeReducer permissive DEFAULT_STATE
        ⟨"UNSET_FLASHING_FLAG", .results { sourceChecksum := .num 0 }⟩
      = .ok (.st { DEFAULT_STATE with
          flashResults := { cancelled := .bool false, sourceChecksum := .num 0 } })
    ∧ isString (JSValue.num 0) = false := ⟨rfl, rfl⟩

/-- C7: for every supported setting key and non-object value, dispatching
`SET_SETTING` and then reading that key back yields the set value;
dispatching with a key outside the fixed default key set throws (so the
previous snapshot remains current, the reducer producing no new state). -/
theorem claim_C7 (C : Constraints) (s : State) :
    (∀ (k : String) (v : JSValue), k ∈ settingKeys → jsIsObject v = false →
      storeReducer C s ⟨"SET_SETTING", .setting (.str k) v⟩
        = .ok (.st { s with settings := setSettingVal s.settings k v })
      ∧ getSettingVal (setSettingVal s.settings k v) k = v)
    ∧ (∀ (k : String) (v : JSValue), k ∉ settingKeys →
      ∃ msg, storeReducer C s ⟨"SET_SETTING", .setting (.str k) v⟩
        = .error (.error msg)) := by
  constructor
  · intro k v hk hv
    simp only [settingKeys, List.mem_cons, List.not_mem_nil, or_false] at hk
    rcases hk with rfl | rfl | rfl | rfl | rfl | rfl | rfl | rfl <;>
      exact ⟨by rw [storeReducer_setSetting]
                unfold setSettingCase
                simp [truthy, settingsHas, settingKeys, hv],
             by simp [setSettingVal, getSettingVal]⟩
  · intro k v hk
    by_cases h0 : k = ""
    · subst h0
      exact ⟨"Missing setting key", by rw [storeReducer_setSetting]; rfl⟩
    · refine ⟨"Unsupported setting: " ++ k, ?_⟩
      rw [storeReducer_setSetting]
      unfold setSettingCase
      have ht : truthy (JSValue.str k) = true := by simp [truthy, h0]
      have hh : settingsHas k = false := by
        simp only [settingKeys, List.mem_cons, List.not_mem_nil, or_false,
          not_or] at hk
        obtain ⟨n1, n2, n3, n4, n5, n6, n7, n8⟩ := hk
        simp [settingsHas, settingKeys, List.contains, n1, n2, n3, n4, n5, n6, n7, n8]
      simp [ht, hh]

/-- C7 witness: round trip for `downloadPath`. -/
theorem claim_C7_witness :
    (storeReducer permissive DEFAULT_STATE
        ⟨"SET_SETTING", .setting (.str "downloadPath") (.str "/tmp")⟩
      = .ok (.st { DEFAULT_STATE with
          settings := setSettingVal DEFAULT_STATE.settings "downloadPath" (.str "/tmp") })
      ∧ getSettingVal (setSettingVal DEFAULT_STATE.settings "downloadPath" (.str "/tmp"))
          "downloadPath" = .str "/tmp") :=
  (claim_C7 permissive DEFAULT_STATE).1 "downloadPath" (.str "/tmp")
    (by decide) (by decide)

/-- C2 (amended): for every state with a previously selected drive and
every valid `SELECT_OS` payload, when the dispatch returns normally its
result is either a state carrying `selection.os = payload`, or — when the
derived re-selection step failed — the caught error object itself, which
`_.attempt` returned and on which no selection is set. The outer
selection is therefore NOT re-applied on a cascade failure. -/
theorem claim_C2 (C : Constraints) (s : State) (o : OS) (dev : String)
    (r : RResult) (_hsel : s.selectionDrive = some dev)
    (h : storeReducer C s ⟨"SELECT_OS", .os o⟩ = .ok r) :
    (∃ t, r = .st t ∧ t.selectionOs = some o) ∨ (∃ e, r = .errObj e) := by
  rw [show storeReducer C s ⟨"SELECT_OS", .os o⟩ = selectOsResult C s o from
    reducerF_selectOs C (by norm_num) s o] at h
  unfold selectOsResult at h
  dsimp only at h
  cases hres : setDrivesResult C { s with selectionOs := some o } s.availableDrives with
  | error e => rw [hres] at h; exact (Except.noConfusion h)
  | ok rr =>
    rw [hres] at h
    cases rr with
    | errObj e =>
      right
      exact ⟨e, by injection h with h1; exact h1.symm⟩
    | st s2 =>
      have hos2 : s2.selectionOs = some o := by
        have hp := presOs_setDrivesResult C { s with selectionOs := some o }
          s.availableDrives
        rw [hres] at hp
        exact hp
      cases hfd : findDrive s.availableDrives (selDriveJS s.selectionDrive) with
      | none =>
        rw [hfd] at h
        left
        refine ⟨s2, ?_, hos2⟩
        injection h with h1
        exact h1.symm
      | some d =>
        rw [hfd] at h
        injection h with h1
        cases hds : derivedStep C s2 d o with
        | error e =>
          right
          refine ⟨e, ?_⟩
          rw [← h1, hds]
          rfl
        | ok rr2 =>
          cases rr2 with
          | st t =>
            left
            refine ⟨t, ?_, ?_⟩
            · rw [← h1, hds]
              rfl
            · have hp := presOs_derivedStep C s2 d o
              rw [hds] at hp
              exact hp.trans hos2
          | errObj e =>
            right
            refine ⟨e, ?_⟩
            rw [← h1, hds]
            rfl

/-- C2 witness: a `SELECT_OS` dispatch with a previously selected drive
whose derived step succeeds, instantiating the left disjunct. -/
theorem claim_C2_witness :
    (∃ t, RResult.st { availableDrives := [{ device := .str "a" }]
                       selectionOs := some {}
                       selectionDrive := none } = .st t
       ∧ t.selectionOs = some ({} : OS))
    ∨ (∃ e, RResult.st { availableDrives := [{ device := .str "a" }]
                         selectionOs := some {}
                         selectionDrive := none } = .errObj e) :=
  claim_C2 permissive
    { availableDrives := [{ device := .str "a" }], selectionDrive := some "a" }
    {} "a"
    (.st { availableDrives := [{ device := .str "a" }]
           selectionOs := some {}
           selectionDrive := none })
    rfl rfl

/-- C2 counterexample: the previously selected drive is write-protected
under the new OS, the cascaded `SELECT_DRIVE` throws, and the dispatch
returns the caught error object as the new value — selection.os is not
set on it. -/
theorem claim_C2_counterexample :
    storeReducer guarded
      { availableDrives := [{ device := .str "a", «protected» := .bool true }]
        selectionDrive := some "a" }
      ⟨"SELECT_OS", .os { images := [{ url := .str "u", recommendedDriveSize := .num 8 }] }⟩
      = .ok (.errObj (.error "The drive is write-protected")) := rfl

/-- C3 (amended): whenever `SELECT_DRIVE` returns normally, the resulting
state has `selection.drive` set to the given device id; but a failure of
the cascaded `SELECT_IMAGE` is not swallowed: calling `setIn` on the
error object `_.attempt` returned makes the dispatch throw a TypeError. -/
theorem claim_C3 (C : Constraints) (s : State) :
    (∀ (dv : JSValue) (r : RResult),
      storeReducer C s ⟨"SELECT_DRIVE", .drive dv⟩ = .ok r →
      ∃ devStr t, dv = .str devStr ∧ r = .st t ∧ t.selectionDrive = some devStr)
    ∧ (∀ (dev : String) (d : Drive) (o : OS) (im : Image) (msg : String),
        s.selectionOs = some o → o.isEmptyObj = false → dev ≠ "" →
        findDrive s.availableDrives (.str dev) = some d →
        truthy d.«protected» = false → d.recommendedImage = some im →
        imageError (recommendedPayload im o) = some msg →
        storeReducer C s ⟨"SELECT_DRIVE", .drive (.str dev)⟩
          = .error (.typeError "attempt(...).setIn is not a function")) := by
  constructor
  · intro dv r h
    rw [show storeReducer C s ⟨"SELECT_DRIVE", .drive dv⟩ = selectDriveResult C s dv from
      reducerF_selectDrive C (by norm_num) s dv] at h
    unfold selectDriveResult at h
    by_cases ht : truthy dv
    · rw [if_neg (by simp [ht])] at h
      cases dv with
      | str devStr =>
        dsimp only at h
        cases hfd : findDrive s.availableDrives (.str devStr) with
        | none => rw [hfd] at h; exact (Except.noConfusion h)
        | some d =>
          rw [hfd] at h
          dsimp only at h
          by_cases hp : truthy d.«protected» = true
          · rw [if_pos hp] at h; exact (Except.noConfusion h)
          · rw [if_neg hp] at h
            cases hos : s.selectionOs with
            | none =>
              rw [hos] at h
              dsimp only at h
              cases him : s.selectionImage with
              | none =>
                rw [him] at h
                injection h with h1
                exact ⟨devStr, _, rfl, h1.symm, rfl⟩
              | some im =>
                rw [him] at h
                dsimp only at h
                by_cases hL : (!C.isDriveLargeEnough d im) = true
                · rw [if_pos hL] at h; exact (Except.noConfusion h)
                · rw [if_neg hL] at h
                  injection h with h1
                  exact ⟨devStr, _, rfl, h1.symm, rfl⟩
            | some o =>
              rw [hos] at h
              dsimp only at h
              by_cases hemp : o.isEmptyObj = true
              · rw [if_pos hemp] at h
                cases him : s.selectionImage with
                | none =>
                  rw [him] at h
                  injection h with h1
                  exact ⟨devStr, _, rfl, h1.symm, rfl⟩
                | some im =>
                  rw [him] at h
                  dsimp only at h
                  by_cases hL : (!C.isDriveLargeEnough d im) = true
                  · rw [if_pos hL] at h; exact (Except.noConfusion h)
                  · rw [if_neg hL] at h
                    injection h with h1
                    exact ⟨devStr, _, rfl, h1.symm, rfl⟩
              · rw [if_neg hemp] at h
                cases hri : d.recommendedImage with
                | none =>
                  rw [hri] at h
                  injection h with h1
                  exact ⟨devStr, _, rfl, h1.symm, rfl⟩
                | some im =>
                  rw [hri] at h
                  dsimp only at h
                  cases hie : imageError (recommendedPayload im o) with
                  | some m => rw [hie] at h; exact (Except.noConfusion h)
                  | none =>
                    rw [hie] at h
                    injection h with h1
                    exact ⟨devStr, _, rfl, h1.symm, rfl⟩
      | undefined => exact (Except.noConfusion h)
      | null => exact (Except.noConfusion h)
      | bool b => exact (Except.noConfusion h)
      | num k => exact (Except.noConfusion h)
      | objLike i => exact (Except.noConfusion h)
    · rw [if_pos (by simp [ht])] at h
      exact (Except.noConfusion h)
  · intro dev d o im msg hos hemp hdev hfd hp hri hie
    rw [show storeReducer C s ⟨"SELECT_DRIVE", .drive (.str dev)⟩
        = selectDriveResult C s (.str dev) from
      reducerF_selectDrive C (by norm_num) s (.str dev)]
    unfold selectDriveResult
    have ht : truthy (JSValue.str dev) = true := by simp [truthy, hdev]
    rw [if_neg (by simp [ht])]
    dsimp only
    rw [hfd]
    dsimp only
    rw [if_neg (by simp [hp]), hos]
    dsimp only
    rw [if_neg (by simp [hemp]), hri]
    dsimp only
    rw [hie]

/-- C3 witness: a successful local-mode `SELECT_DRIVE` has
`selection.drive` set to the device id. -/
theorem claim_C3_witness :
    ∃ devStr t, JSValue.str "a" = JSValue.str devStr
      ∧ RResult.st { availableDrives := [{ device := .str "a" }]
                     selectionDrive := some "a" } = .st t
      ∧ t.selectionDrive = some devStr :=
  (claim_C3 permissive { availableDrives := [{ device := .str "a" }] }).1
    (.str "a")
    (.st { availableDrives := [{ device := .str "a" }], selectionDrive := some "a" })
    rfl

/-- C3 counterexample: an OS is selected and the matched drive carries a
recommended image with no url; the cascaded `SELECT_IMAGE` throws, and
the dispatch throws a TypeError instead of returning normally with
`selection.drive` set. -/
theorem claim_C3_counterexample :
    storeReducer permissive
      { availableDrives := [{ device := .str "b", recommendedImage := some {} }]
        selectionOs := some {} }
      ⟨"SELECT_DRIVE", .drive (.str "b")⟩
      = .error (.typeError "attempt(...).setIn is not a function") := rfl

/-- C4 (amended): when `SELECT_DRIVE` is dispatched with a non-empty OS
selected and the matched drive carrying a `recommendedImage`, the
cascaded `SELECT_IMAGE` payload is built from that image url (as
`path`), its `recommendedDriveSize` (as `size` — not the image `size`
field), its `checksum` (as `downloadChecksum`), with checksum type `md5`
when the image specifies none, plus the selected OS logo and version
(see `recommendedPayload`); when the cascade passes validation, the
resulting state carries that payload as `selection.image`. -/
theorem claim_C4 (C : Constraints) (s : State) (o : OS) (d : Drive) (im : Image)
    (dev : String)
    (hos : s.selectionOs = some o) (hemp : o.isEmptyObj = false)
    (hdev : dev ≠ "")
    (hfd : findDrive s.availableDrives (.str dev) = some d)
    (hp : truthy d.«protected» = false)
    (hri : d.recommendedImage = some im)
    (hok : imageError (recommendedPayload im o) = none) :
    storeReducer C s ⟨"SELECT_DRIVE", .drive (.str dev)⟩
      = .ok (.st { s with selectionImage := some (recommendedPayload im o)
                          selectionDrive := some dev }) := by
  rw [show storeReducer C s ⟨"SELECT_DRIVE", .drive (.str dev)⟩
      = selectDriveResult C s (.str dev) from
    reducerF_selectDrive C (by norm_num) s (.str dev)]
  unfold selectDriveResult
  have ht : truthy (JSValue.str dev) = true := by simp [truthy, hdev]
  rw [if_neg (by simp [ht])]
  dsimp only
  rw [hfd]
  dsimp only
  rw [if_neg (by simp [hp]), hos]
  dsimp only
  rw [if_neg (by simp [hemp]), hri]
  dsimp only
  rw [hok]

/-- C4 witness: the cascade at a concrete drive, OS and image. -/
theorem claim_C4_witness :
    storeReducer permissive
      { availableDrives := [{ device := .str "b"
                              recommendedImage := some { url := .str "http://x"
                                                         recommendedDriveSize := .num 200
                                                         size := .num 100 } }]
        selectionOs := some { logo := .str "L", version := .str "V" } }
      ⟨"SELECT_DRIVE", .drive (.str "b")⟩
      = .ok (.st { availableDrives := [{ device := .str "b"
                                         recommendedImage := some { url := .str "http://x"
                                                                    recommendedDriveSize := .num 200
                                                                    size := .num 100 } }]
                   selectionOs := some { logo := .str "L", version := .str "V" }
                   selectionDrive := some "b"
                   selectionImage := some (recommendedPayload
                     { url := .str "http://x", recommendedDriveSize := .num 200, size := .num 100 }
                     { logo := .str "L", version := .str "V" }) }) :=
  claim_C4 permissive
    { availableDrives := [{ device := .str "b"
                            recommendedImage := some { url := .str "http://x"
                                                       recommendedDriveSize := .num 200
                                                       size := .num 100 } }]
      selectionOs := some { logo := .str "L", version := .str "V" } }
    { logo := .str "L", version := .str "V" }
    { device := .str "b"
      recommendedImage := some { url := .str "http://x"
                                 recommendedDriveSize := .num 200
                                 size := .num 100 } }
    { url := .str "http://x", recommendedDriveSize := .num 200, size := .num 100 }
    "b" rfl rfl (by decide) rfl rfl rfl rfl

/-- C4 counterexample: the source image has `size = 100` but the cascaded
payload stored as `selection.image` carries `size = 200`, the image
`recommendedDriveSize` — the payload is not built from the image `size`. -/
theorem claim_C4_counterexample :
    storeReducer permissive
      { availableDrives := [{ device := .str "b"
                              recommendedImage := some { url := .str "http://x"
                                                         recommendedDriveSize := .num 200
                                                         size := .num 100 } }]
        selectionOs := some { logo := .str "L", version := .str "V" } }
      ⟨"SELECT_DRIVE", .drive (.str "b")⟩
      = .ok (.st { availableDrives := [{ device := .str "b"
                                         recommendedImage := some { url := .str "http://x"
                                                                    recommendedDriveSize := .num 200
                                                                    size := .num 100 } }]
                   selectionOs := some { logo := .str "L", version := .str "V" }
                   selectionDrive := some "b"
                   selectionImage := some { path := .str "http://x"
                                            size := .num 200
                                            logo := .str "L"
                                            version := .str "V"
                                            downloadChecksumType := .str "md5" } })
    ∧ (JSValue.num 200 ≠ JSValue.num 100) := ⟨rfl, by decide⟩

/-- C1 (amended): the reducer maintains the strengthened drive-selection
invariant `invB` — `selection.drive`, when set, is a non-empty (truthy)
device id matched by some available drive: the invariant holds of the
default state, and every dispatch that returns normally preserves it (an
error-object result carries no selection). The non-emptiness
strengthening is forced because the stale-selection cleanup of
`SET_AVAILABLE_DRIVES` tests the selected device for truthiness, so bare
membership alone is not preserved from an empty-string selection. And
dispatching `SET_AVAILABLE_DRIVES` with a list omitting the currently
selected non-empty device clears `selection.drive` and, if an OS is
selected, also clears `selection.image` — unless the new list is a
single drive passing the auto-select constraints, in which case that
drive is selected instead. -/
theorem claim_C1 (C : Constraints) (s : State) (hinv : invB s = true) :
    invB DEFAULT_STATE = true
    ∧ (∀ (a : Action) (r : RResult), storeReducer C s a = .ok r → invR r)
    ∧ (∀ (ds : List Drive) (dev : String),
        s.selectionDrive = some dev → dev ≠ "" →
        (∀ d ∈ ds, d.device ≠ .str dev) →
        autoSelects C s (annotatedDrives C s ds) = false →
        storeReducer C s ⟨"SET_AVAILABLE_DRIVES", .drives ds⟩
          = .ok (.st { s with availableDrives := annotatedDrives C s ds
                              selectionDrive := none
                              selectionImage := if s.selectionOs.isSome then none
                                else s.selectionImage })) := by
  refine ⟨rfl, ?_, ?_⟩
  · intro a r h
    obtain ⟨ty, p⟩ := a
    have hi := inv_storeReducer C s ty p hinv
    rw [h] at hi
    exact hi
  · intro ds dev hsel hdev hout hauto
    have htr : truthy (JSValue.str dev) = true := by simp [truthy, hdev]
    rw [show storeReducer C s ⟨"SET_AVAILABLE_DRIVES", .drives ds⟩
        = setDrivesResult C s ds from reducerF_setDrives C (by norm_num) s ds]
    unfold setDrivesResult
    simp only [annotatedDrives] at hauto ⊢
    have hfind : (ds.map (applyRecommended C (match s.selectionOs with
        | some o => o.images
        | Option.none => []))).find? (fun x => x.device == .str dev) = none := by
      apply List.find?_eq_none.mpr
      intro x hx
      obtain ⟨y, hy, rfl⟩ := List.mem_map.mp hx
      simp [device_applyRecommended, hout y hy]
    rcases hds : ds.map (applyRecommended C (match s.selectionOs with
        | some o => o.images
        | Option.none => [])) with _ | ⟨d, _ | ⟨d2, rest⟩⟩
    · dsimp only
      rw [hsel]
      dsimp only
      rw [if_pos (by simp [htr])]
      simp [removeDriveResult]
    · dsimp only
      rw [hds] at hauto hfind
      rw [if_neg (by simp only [autoSelects] at hauto; simp [hauto])]
      rw [hsel]
      dsimp only
      rw [if_pos (by simp [htr, hfind])]
      simp [removeDriveResult]
    · dsimp only
      rw [hsel]
      dsimp only
      rw [hds] at hfind
      rw [if_pos (by simp [htr, hfind])]
      simp [removeDriveResult]

/-- C1 witness: removing the selected drive by re-enumerating with an
empty list clears the selection. -/
theorem claim_C1_witness :
    storeReducer permissive
        { availableDrives := [{ device := .str "a" }], selectionDrive := some "a" }
        ⟨"SET_AVAILABLE_DRIVES", .drives []⟩
      = .ok (.st { availableDrives := [], selectionDrive := none }) := by
  have h := (claim_C1 permissive
    { availableDrives := [{ device := .str "a" }], selectionDrive := some "a" }
    (by decide)).2.2 [] "a" rfl (by decide) (by simp) (by decide)
  simpa [annotatedDrives] using h

/-- C1 counterexample, refuting both halves of the original claim.
First: re-enumerating with a single auto-selectable drive that is not
the selected one replaces the selection instead of clearing it —
`selection.drive` becomes the new device, not `none`. Second: from a
state whose empty-string selection does match an available drive (so
bare membership holds on entry), re-enumerating without that device
returns normally but keeps the stale selection, because the cleanup at
store.js:176 tests the selected device for truthiness; the resulting
state has `selection.drive` set with no matching available drive. -/
theorem claim_C1_counterexample :
    (storeReducer permissive
        { availableDrives := [{ device := .str "a" }], selectionDrive := some "a" }
        ⟨"SET_AVAILABLE_DRIVES", .drives [{ device := .str "b" }]⟩
      = .ok (.st { availableDrives := [{ device := .str "b" }]
                   selectionDrive := some "b" }))
    ∧ (some "b" ≠ (none : Option String))
    ∧ (List.any [({ device := .str "" } : Drive)]
        (fun d => d.device == .str "") = true)
    ∧ (storeReducer guarded
        { availableDrives := [{ device := .str "" }], selectionDrive := some "" }
        ⟨"SET_AVAILABLE_DRIVES",
          .drives [{ device := .str "b", «protected» := .bool true }]⟩
      = .ok (.st { availableDrives := [{ device := .str "b"
                                         «protected» := .bool true }]
                   selectionDrive := some "" }))
    ∧ (List.any [({ device := .str "b", «protected» := .bool true } : Drive)]
        (fun d => d.device == .str "") = false) :=
  ⟨rfl, by decide, by decide, rfl, by decide⟩

end PineStore